import Mathlib

/-!
Verification of the key-manager extension-point contract of the Tink C++
library (file `cc/key_manager.h`).

The source file declares two abstractions:

* `KeyFactory` — generates new key material for exactly one key type
  (`NewKey` on a structured format message, `NewKey` on serialized format
  bytes, and `NewKeyData` wrapping the result in a `KeyData` container);
* `KeyManager<P>` — turns key material into a primitive of capability
  type `P` (`GetPrimitive` on a `KeyData` container and on a structured
  key message), and reports its fixed type identifier (`get_key_type`),
  version (`get_version`, a `uint32_t`) and companion factory
  (`get_key_factory`).  Its only concrete method is
  `DoesSupport(key_type) { return (key_type == get_key_type()); }`.

All other operations are pure-virtual in the source; their behaviour is
modelled here from the specification of the contract every implementor
must satisfy.  Machine integers are embedded as `Nat` with explicit
reduction modulo `2 ^ 32` where the source uses `uint32_t`; fallible
operations (C++ `StatusOr`) are embedded as `Except` over the error
taxonomy named by the specification.
-/

/-- The material-category tag carried by a `KeyData` container
    (`KeyData::KeyMaterialType` in `proto/tink.proto`): symmetric,
    asymmetric-private, asymmetric-public, or remote. -/
inductive KeyMaterialType where
  | symmetric
  | asymmetricPrivate
  | asymmetricPublic
  | remote
  deriving DecidableEq, Repr

/-- The `KeyData` protocol-buffer container: a type identifier
    (`type_url`), serialized key bytes (`value`), and a material-category
    tag.  Bytes are modelled as lists of naturals. -/
structure KeyData where
  type_url : String
  value : List Nat
  key_material_type : KeyMaterialType
  deriving DecidableEq, Repr

/-- The error taxonomy of the contract: `InvalidArgument` (structurally
    wrong request type), `ParseError` (bytes do not deserialize),
    `WrongKeyType` (container/handler identifier mismatch),
    `VersionMismatch` (key material newer than the handler), and
    `InternalError` (implementor invariant violated). -/
inductive TinkError where
  | InvalidArgument
  | ParseError
  | WrongKeyType
  | VersionMismatch
  | InternalError
  deriving DecidableEq, Repr

/-- A structured key object: the embedded version number of the key
    material plus the raw material bytes. -/
structure KeyObject where
  version : Nat
  material : List Nat
  deriving DecidableEq, Repr

/-- A typed protobuf message holding a key object: the global name of
    its message type together with the payload.  This models the
    `google::protobuf::Message&` argument of the second `GetPrimitive`
    overload, whose dynamic type the handler must check. -/
structure KeyMessage where
  msg_type : String
  key : KeyObject
  deriving DecidableEq, Repr

/-- A typed protobuf message holding a key-format request: the global
    name of its message type together with the format parameters. -/
structure FormatMessage where
  msg_type : String
  params : List Nat
  deriving DecidableEq, Repr

/-- Modelled from the spec: the source declares `KeyFactory` as an
    abstract class whose three generation methods are pure-virtual, so a
    factory implementation is modelled by its type-specific data: the
    type identifier it stamps on produced containers, the format message
    type it expects, the material category it assigns (`none` models an
    implementor that cannot classify the material), a deserializer for
    serialized format bytes, a key generator drawing on caller-supplied
    entropy, and a serializer for produced key objects. -/
structure KeyFactory where
  key_type : String
  format_type : String
  material_type : Option KeyMaterialType
  parseFormat : List Nat → Option (List Nat)
  genKey : List Nat → List Nat → KeyObject
  serializeKey : KeyObject → List Nat

/-- Modelled from the spec: `KeyFactory::NewKey(const Message&)` is
    pure-virtual; per the contract it fails with `InvalidArgument` when
    the format message is not of the type this factory expects, and
    otherwise returns a newly generated key object wrapped in the key
    message type of this factory.  Entropy is passed explicitly. -/
def KeyFactory.NewKey_format (f : KeyFactory) (entropy : List Nat)
    (fmt : FormatMessage) : Except TinkError KeyMessage :=
  if fmt.msg_type = f.format_type then
    Except.ok ⟨f.key_type, f.genKey entropy fmt.params⟩
  else
    Except.error TinkError.InvalidArgument

/-- Modelled from the spec: `KeyFactory::NewKey(absl::string_view)` is
    pure-virtual; per the contract it fails with `ParseError` when the
    bytes do not deserialize into this factory's expected format type,
    and otherwise behaves as the structured-format variant. -/
def KeyFactory.NewKey_serialized (f : KeyFactory) (entropy : List Nat)
    (bytes : List Nat) : Except TinkError KeyMessage :=
  match f.parseFormat bytes with
  | none => Except.error TinkError.ParseError
  | some params => Except.ok ⟨f.key_type, f.genKey entropy params⟩

/-- Modelled from the spec: `KeyFactory::NewKeyData` is pure-virtual;
    per the contract it composes the serialized-format `NewKey` with
    wrapping the result in a `KeyData` container stamped with this
    factory's type identifier and material category, failing with
    `InternalError` when no material category can be determined. -/
def KeyFactory.NewKeyData (f : KeyFactory) (entropy : List Nat)
    (bytes : List Nat) : Except TinkError KeyData :=
  match f.NewKey_serialized entropy bytes with
  | Except.error e => Except.error e
  | Except.ok km =>
    match f.material_type with
    | none => Except.error TinkError.InternalError
    | some mt => Except.ok ⟨f.key_type, f.serializeKey km.key, mt⟩

/-- Modelled from the spec (declarations from the source): a
    `KeyManager<P>` implementation is modelled by its immutable
    configuration — the type identifier it claims, its version number,
    its companion factory — together with its type-specific key
    deserializer and primitive constructor, both pure-virtual in the
    source.  The source declares every method `const`. -/
structure KeyManager (P : Type) where
  key_type : String
  version : Nat
  key_factory : KeyFactory
  parseKey : List Nat → Option KeyObject
  primitiveOf : KeyObject → P

/-- `KeyManager::get_key_type`: returns the type_url identifying the key
    type handled by this manager. -/
def KeyManager.get_key_type {P : Type} (m : KeyManager P) : String :=
  m.key_type

/-- `KeyManager::get_version`: returns the version of this key manager.
    The source declares the return type `uint32_t`, embedded as
    reduction modulo `2 ^ 32`. -/
def KeyManager.get_version {P : Type} (m : KeyManager P) : Nat :=
  m.version % 2 ^ 32

/-- `KeyManager::get_key_factory`: returns the factory that generates
    keys of the key type handled by this manager. -/
def KeyManager.get_key_factory {P : Type} (m : KeyManager P) : KeyFactory :=
  m.key_factory

/-- `KeyManager::DoesSupport`, the one concrete method of the source:
    `return (key_type == get_key_type());`. -/
def KeyManager.DoesSupport {P : Type} (m : KeyManager P)
    (key_type : String) : Bool :=
  key_type == m.get_key_type

/-- Modelled from the spec: `KeyManager::GetPrimitive(const KeyData&)`
    is pure-virtual; per the contract it fails with `WrongKeyType` when
    the container's type identifier differs from this handler's, with
    `ParseError` when the container's bytes do not deserialize, with
    `VersionMismatch` when the deserialized object's version exceeds
    `get_version()`, and otherwise returns the constructed primitive. -/
def KeyManager.GetPrimitive_data {P : Type} (m : KeyManager P)
    (key_data : KeyData) : Except TinkError P :=
  if key_data.type_url = m.get_key_type then
    match m.parseKey key_data.value with
    | none => Except.error TinkError.ParseError
    | some key =>
      if key.version ≤ m.get_version then
        Except.ok (m.primitiveOf key)
      else
        Except.error TinkError.VersionMismatch
  else
    Except.error TinkError.WrongKeyType

/-- Modelled from the spec: `KeyManager::GetPrimitive(const Message&)`
    is pure-virtual; per the contract it fails with `InvalidArgument`
    when the message is not of the key type this handler understands,
    and otherwise follows the same contract as the container overload
    on the already-typed key object. -/
def KeyManager.GetPrimitive_key {P : Type} (m : KeyManager P)
    (key : KeyMessage) : Except TinkError P :=
  if key.msg_type = m.get_key_type then
    if key.key.version ≤ m.get_version then
      Except.ok (m.primitiveOf key.key)
    else
      Except.error TinkError.VersionMismatch
  else
    Except.error TinkError.InvalidArgument

/-- One invocation on a handler: either `GetPrimitive` overload, the
    convenience predicate, or one of the three accessors. -/
inductive HandlerOp where
  | getPrimitiveData (kd : KeyData)
  | getPrimitiveKey (km : KeyMessage)
  | doesSupport (s : String)
  | getKeyType
  | getVersion
  | getKeyFactory

/-- The observable result of one handler invocation. -/
inductive OpResult (P : Type) where
  | primResult (r : Except TinkError P)
  | boolResult (b : Bool)
  | stringResult (s : String)
  | natResult (n : Nat)
  | factoryResult (f : KeyFactory)

/-- One invocation on a handler.  Every `KeyManager` method is declared
    `const` in the source, so an invocation reads the handler and
    returns it unchanged alongside its observable result. -/
def KeyManager.applyOp {P : Type} (m : KeyManager P) :
    HandlerOp → KeyManager P × OpResult P
  | HandlerOp.getPrimitiveData kd =>
      (m, OpResult.primResult (m.GetPrimitive_data kd))
  | HandlerOp.getPrimitiveKey km =>
      (m, OpResult.primResult (m.GetPrimitive_key km))
  | HandlerOp.doesSupport s => (m, OpResult.boolResult (m.DoesSupport s))
  | HandlerOp.getKeyType => (m, OpResult.stringResult m.get_key_type)
  | HandlerOp.getVersion => (m, OpResult.natResult m.get_version)
  | HandlerOp.getKeyFactory => (m, OpResult.factoryResult m.get_key_factory)

/-- The handler remaining after a whole sequence of invocations. -/
def KeyManager.runOps {P : Type} (m : KeyManager P)
    (ops : List HandlerOp) : KeyManager P :=
  ops.foldl (fun st op => (st.applyOp op).1) m

/-- The factory/handler coherence invariant the contract imposes on a
    companion pair shipped together: the factory stamps the handler's
    type identifier, key objects serialized by the factory deserialize
    back unchanged through the handler, freshly generated key material
    never carries a version above the handler's, and the factory can
    always classify its material category. -/
structure CompanionOK {P : Type} (m : KeyManager P) : Prop where
  type_match : m.get_key_factory.key_type = m.get_key_type
  roundtrip : ∀ k, m.parseKey (m.get_key_factory.serializeKey k) = some k
  fresh_version_le : ∀ entropy params,
    (m.get_key_factory.genKey entropy params).version ≤ m.get_version
  has_material : m.get_key_factory.material_type.isSome

/-- The serialized path: generate wrapped key material with
    `NewKeyData`, then hand the container to the handler's
    container-overload `GetPrimitive`, propagating any failure. -/
def KeyManager.primitiveViaKeyData {P : Type} (m : KeyManager P)
    (entropy bytes : List Nat) : Except TinkError P :=
  match m.get_key_factory.NewKeyData entropy bytes with
  | Except.error e => Except.error e
  | Except.ok kd => m.GetPrimitive_data kd

/-- The direct path: generate a structured key object with the
    serialized-format `NewKey`, then hand it to the handler's
    message-overload `GetPrimitive`, propagating any failure. -/
def KeyManager.primitiveViaNewKey {P : Type} (m : KeyManager P)
    (entropy bytes : List Nat) : Except TinkError P :=
  match m.get_key_factory.NewKey_serialized entropy bytes with
  | Except.error e => Except.error e
  | Except.ok km => m.GetPrimitive_key km

/-- A concrete factory instance used to exercise the contract: format
    bytes parse whenever nonempty, a generated key concatenates entropy
    with the requested parameters at version 0, and keys serialize as
    the version followed by the material. -/
def demoFactory : KeyFactory where
  key_type := "AesGcmKey"
  format_type := "AesGcmKeyFormat"
  material_type := some KeyMaterialType.symmetric
  parseFormat := fun bytes => if bytes = [] then none else some bytes
  genKey := fun entropy params => ⟨0, entropy ++ params⟩
  serializeKey := fun k => k.version :: k.material

/-- A concrete handler instance companion to `demoFactory`; its
    primitive is the sum of the key material. -/
def demoManager : KeyManager Nat where
  key_type := "AesGcmKey"
  version := 2
  key_factory := demoFactory
  parseKey := fun bytes =>
    match bytes with
    | [] => none
    | v :: rest => some ⟨v, rest⟩
  primitiveOf := fun k => k.material.sum

/-- `demoManager` and `demoFactory` satisfy the companion coherence
    invariant. -/
theorem demoManager_companion : CompanionOK demoManager := by
  constructor
  · rfl
  · intro k
    rfl
  · intro entropy params
    simp [demoManager, demoFactory, KeyManager.get_key_factory,
      KeyManager.get_version]
  · rfl

/-- Claim C1: for every handler and every string input `x`, including
    the empty string and strings differing from the handler's
    identifier only in case, `DoesSupport x` returns `true` if and only
    if `x` is exactly equal to the string returned by
    `get_key_type()`. -/
theorem DoesSupport_iff_eq_key_type {P : Type} (m : KeyManager P)
    (x : String) : m.DoesSupport x = true ↔ x = m.get_key_type := by
  simp [KeyManager.DoesSupport]

/-- Claim C7: `DoesSupport` is total — for every handler and every
    candidate identifier, including the empty string, it returns one of
    the two booleans and has no failure outcome. -/
theorem DoesSupport_total {P : Type} (m : KeyManager P) (x : String) :
    m.DoesSupport x = true ∨ m.DoesSupport x = false := by
  cases h : m.DoesSupport x
  · exact Or.inr rfl
  · exact Or.inl rfl

/-- Claim C2: whenever a container's type identifier differs from the
    handler's `get_key_type()`, `GetPrimitive` on the container fails
    with `WrongKeyType`, regardless of whether the container's bytes
    would otherwise deserialize. -/
theorem GetPrimitive_data_wrong_key_type {P : Type} (m : KeyManager P)
    (kd : KeyData) (h : kd.type_url ≠ m.get_key_type) :
    m.GetPrimitive_data kd = Except.error TinkError.WrongKeyType := by
  simp [KeyManager.GetPrimitive_data, h]

/-- Claim C2 witness: a container whose bytes parse cleanly under
    `demoManager` but whose type identifier names a different key type
    is rejected with `WrongKeyType`. -/
theorem GetPrimitive_data_wrong_key_type_witness :
    demoManager.parseKey [0, 1, 2] = some ⟨0, [1, 2]⟩ ∧
      (KeyData.mk "EcdsaPrivateKey" [0, 1, 2]
          KeyMaterialType.asymmetricPrivate).type_url ≠
        demoManager.get_key_type ∧
      demoManager.GetPrimitive_data
          (KeyData.mk "EcdsaPrivateKey" [0, 1, 2]
            KeyMaterialType.asymmetricPrivate) =
        Except.error TinkError.WrongKeyType :=
  ⟨rfl, by decide,
    GetPrimitive_data_wrong_key_type demoManager _ (by decide)⟩

/-- Claim C3: on a container of the handler's own type whose bytes
    deserialize, `GetPrimitive` fails with `VersionMismatch` exactly
    when the embedded version exceeds `get_version()`; a version less
    than or equal to `get_version()` never produces that failure. -/
theorem GetPrimitive_data_version_check {P : Type} (m : KeyManager P)
    (kd : KeyData) (key : KeyObject)
    (hurl : kd.type_url = m.get_key_type)
    (hparse : m.parseKey kd.value = some key) :
    (m.get_version < key.version →
      m.GetPrimitive_data kd = Except.error TinkError.VersionMismatch) ∧
    (key.version ≤ m.get_version →
      m.GetPrimitive_data kd ≠ Except.error TinkError.VersionMismatch) := by
  constructor
  · intro hgt
    simp [KeyManager.GetPrimitive_data, hurl, hparse, Nat.not_le.mpr hgt]
  · intro hle
    simp [KeyManager.GetPrimitive_data, hurl, hparse, hle]

/-- Claim C3 witness: `demoManager` has version 2; a key embedding
    version 3 is rejected with `VersionMismatch`, while a key embedding
    version 2 is not rejected for a version-related reason. -/
theorem GetPrimitive_data_version_check_witness :
    demoManager.GetPrimitive_data
        (KeyData.mk "AesGcmKey" [3, 9] KeyMaterialType.symmetric) =
      Except.error TinkError.VersionMismatch ∧
    demoManager.GetPrimitive_data
        (KeyData.mk "AesGcmKey" [2, 9] KeyMaterialType.symmetric) ≠
      Except.error TinkError.VersionMismatch :=
  ⟨(GetPrimitive_data_version_check demoManager
        (KeyData.mk "AesGcmKey" [3, 9] KeyMaterialType.symmetric)
        ⟨3, [9]⟩ rfl rfl).1 (by decide),
    (GetPrimitive_data_version_check demoManager
        (KeyData.mk "AesGcmKey" [2, 9] KeyMaterialType.symmetric)
        ⟨2, [9]⟩ rfl rfl).2 (by decide)⟩

/-- Claim C4: for every serialized key format the factory accepts, the
    path `NewKeyData` followed by `GetPrimitive` on the returned
    container yields the same primitive as the path `NewKey` followed by
    `GetPrimitive` on the returned key object directly, for a companion
    factory/handler pair drawing the same entropy. -/
theorem primitive_paths_agree {P : Type} (m : KeyManager P)
    (entropy bytes params : List Nat) (hc : CompanionOK m)
    (hacc : m.get_key_factory.parseFormat bytes = some params) :
    m.primitiveViaKeyData entropy bytes =
      m.primitiveViaNewKey entropy bytes := by
  obtain ⟨mt, hmt⟩ := Option.isSome_iff_exists.mp hc.has_material
  have hkt := hc.type_match
  have hrt := hc.roundtrip (m.get_key_factory.genKey entropy params)
  have hv := hc.fresh_version_le entropy params
  simp [KeyManager.primitiveViaKeyData, KeyManager.primitiveViaNewKey,
    KeyFactory.NewKeyData, KeyFactory.NewKey_serialized, hacc, hmt,
    KeyManager.GetPrimitive_data, KeyManager.GetPrimitive_key,
    hkt, hrt, hv]

/-- Claim C4 witness: on the demo companion pair, the format bytes
    `[16]` are accepted and the two generation-then-primitive paths
    agree with entropy `[7, 8]`. -/
theorem primitive_paths_agree_witness :
    demoManager.get_key_factory.parseFormat [16] = some [16] ∧
      demoManager.primitiveViaKeyData [7, 8] [16] =
        demoManager.primitiveViaNewKey [7, 8] [16] :=
  ⟨rfl, primitive_paths_agree demoManager [7, 8] [16] [16]
    demoManager_companion rfl⟩

/-- Claim C5: each `GetPrimitive` overload is all-or-nothing on every
    input — it either returns the fully constructed primitive built by
    the handler's constructor from the parsed key object, or a typed
    error from the taxonomy; no other outcome exists. -/
theorem GetPrimitive_all_or_nothing {P : Type} (m : KeyManager P)
    (kd : KeyData) (km : KeyMessage) :
    ((∃ key, m.parseKey kd.value = some key ∧
        m.GetPrimitive_data kd = Except.ok (m.primitiveOf key)) ∨
      (∃ e, m.GetPrimitive_data kd = Except.error e)) ∧
    (m.GetPrimitive_key km = Except.ok (m.primitiveOf km.key) ∨
      (∃ e, m.GetPrimitive_key km = Except.error e)) := by
  constructor
  · unfold KeyManager.GetPrimitive_data
    split
    · cases hp : m.parseKey kd.value with
      | none => exact Or.inr ⟨TinkError.ParseError, rfl⟩
      | some key =>
        by_cases hv : key.version ≤ m.get_version
        · exact Or.inl ⟨key, rfl, by simp [hv]⟩
        · exact Or.inr ⟨TinkError.VersionMismatch, by simp [hv]⟩
    · exact Or.inr ⟨TinkError.WrongKeyType, rfl⟩
  · unfold KeyManager.GetPrimitive_key
    split
    · split
      · exact Or.inl rfl
      · exact Or.inr ⟨TinkError.VersionMismatch, rfl⟩
    · exact Or.inr ⟨TinkError.InvalidArgument, rfl⟩

/-- Claim C6: for a companion factory/handler pair and a format message
    of the type the factory expects, `NewKey` succeeds and the key
    object it returns is accepted by the handler's `GetPrimitive`,
    which returns a primitive. -/
theorem NewKey_then_GetPrimitive_succeeds {P : Type} (m : KeyManager P)
    (entropy : List Nat) (fmt : FormatMessage) (hc : CompanionOK m)
    (hfmt : fmt.msg_type = m.get_key_factory.format_type) :
    ∃ km, m.get_key_factory.NewKey_format entropy fmt = Except.ok km ∧
      ∃ p, m.GetPrimitive_key km = Except.ok p := by
  refine ⟨⟨m.get_key_factory.key_type,
    m.get_key_factory.genKey entropy fmt.params⟩, ?_, ?_⟩
  · simp [KeyFactory.NewKey_format, hfmt]
  · exact ⟨m.primitiveOf (m.get_key_factory.genKey entropy fmt.params),
      by simp [KeyManager.GetPrimitive_key, hc.type_match,
        hc.fresh_version_le entropy fmt.params]⟩

/-- Claim C6 witness: on the demo companion pair, a format message of
    the expected type yields a key via `NewKey` that `GetPrimitive`
    turns into a primitive. -/
theorem NewKey_then_GetPrimitive_succeeds_witness :
    (FormatMessage.mk "AesGcmKeyFormat" [32]).msg_type =
        demoManager.get_key_factory.format_type ∧
      ∃ km, demoManager.get_key_factory.NewKey_format [5]
            (FormatMessage.mk "AesGcmKeyFormat" [32]) = Except.ok km ∧
        ∃ p, demoManager.GetPrimitive_key km = Except.ok p :=
  ⟨rfl, NewKey_then_GetPrimitive_succeeds demoManager [5]
    (FormatMessage.mk "AesGcmKeyFormat" [32]) demoManager_companion rfl⟩

/-- Every handler method is `const` in the source: one invocation
    leaves the handler unchanged. -/
theorem applyOp_fst {P : Type} (m : KeyManager P) (op : HandlerOp) :
    (m.applyOp op).1 = m := by
  cases op <;> rfl

/-- A whole sequence of invocations leaves the handler unchanged. -/
theorem runOps_eq_self {P : Type} (m : KeyManager P)
    (ops : List HandlerOp) : m.runOps ops = m := by
  induction ops generalizing m with
  | nil => rfl
  | cons op rest ih =>
    show KeyManager.runOps ((m.applyOp op).1) rest = m
    rw [applyOp_fst]
    exact ih m

/-- Claim C8: across every sequence of invocations in a handler's
    lifetime, `get_key_type()`, `get_version()` and
    `get_key_factory()` keep returning the values fixed at
    construction. -/
theorem runOps_preserves_accessors {P : Type} (m : KeyManager P)
    (ops : List HandlerOp) :
    (m.runOps ops).get_key_type = m.get_key_type ∧
    (m.runOps ops).get_version = m.get_version ∧
    (m.runOps ops).get_key_factory = m.get_key_factory := by
  rw [runOps_eq_self]
  exact ⟨rfl, rfl, rfl⟩

/-- Claim C10: `get_version()` returns a `uint32_t`, so every version a
    handler can report lies below `2 ^ 32` (and is nonnegative, being a
    natural number). -/
theorem get_version_lt_two_pow_32 {P : Type} (m : KeyManager P) :
    m.get_version < 2 ^ 32 :=
  Nat.mod_lt _ (by norm_num)
